import Mathlib

/-!
# Verification of the go-llm-proxy translation/routing core

Shallow embedding of the request/response translation and model-routing layer
of `go-llm-proxy`: the token budgeter (`internal/config` / `internal/types`),
the model registry (`models.go`, `internal/models/models.go`), the backend
manager (`backend.go`, `internal/backend`), the OpenAI adapter's request
construction (`pkg/openai/openai_backend.go`), the dynamic-fetch filter and
name transformations (`internal/fetcher/model_fetcher.go`) and the simulated
streaming emitter (`internal/streaming`).

Go machine integers are modelled as `Nat`/`Int` (no value in scope approaches
overflow); Go strings are Lean `String`s, operated on through their `List Char`
of code points, with Go's byte-length `len` modelled as the UTF-8 size of the
code-point list; fallible Go code returns `Except String`.
-/

namespace LLMProxy

/-- `BackendType` (src/backend.go): the provider id enum, a Go string constant
`"anthropic"` / `"openai"`. -/
inductive BackendType where
  | anthropic
  | openai
deriving DecidableEq, Repr

/-- The underlying Go string of a `BackendType` constant. -/
def BackendType.str : BackendType → String
  | .anthropic => "anthropic"
  | .openai => "openai"

/-- `ChatMessage` (src/backend.go): one message of a chat request. -/
structure ChatMessage where
  role : String
  content : String
deriving DecidableEq, Repr

/-- `ModelConfig` (src/models.go): one catalog entry.  `MaxTokens` is the
model's context window; it is a Go `int` holding a size, modelled as `Nat`
(the data-model invariant requires `contextWindow > 0`). -/
structure ModelConfig where
  name : String
  displayName : String
  backend : BackendType
  backendModel : String
  family : String
  description : String
  maxTokens : Nat
  enabled : Bool
deriving DecidableEq, Repr

/-! ## Token budgeter (src/internal/config/config.go: EstimateTokens,
EstimateChatTokens, CalculateMaxTokensForRequest, ValidateTokenLimits) -/

/-- The whitespace set of Go's `unicode.IsSpace` restricted to Latin-1
(`'\t' '\n' '\v' '\f' '\r' ' ' U+0085 U+00A0`); the higher-plane Unicode
space classes are not exercised anywhere in this development. -/
def isGoSpace (c : Char) : Bool :=
  c = ' ' || c = '\t' || c = '\n' || c = '\x0b' || c = '\x0c' || c = '\r' ||
  c = '\x85' || c = '\xa0'

/-- Go `strings.TrimSpace` on the code-point list: drop leading and trailing
whitespace. -/
def goTrimSpace (cs : List Char) : List Char :=
  ((cs.dropWhile isGoSpace).reverse.dropWhile isGoSpace).reverse

/-- Go `len` of a string: its UTF-8 byte size. -/
def utf8Len (cs : List Char) : Nat :=
  (cs.map Char.utf8Size).sum

/-- `EstimateTokens` (config.go): `0` for the empty string, else
`(len(strings.TrimSpace(text)) + 3) / 4` with integer division. -/
def EstimateTokens (text : String) : Nat :=
  if text = "" then 0
  else (utf8Len (goTrimSpace text.data) + 3) / 4

/-- `EstimateChatTokens` (config.go): per message, role and content estimates
plus `4` of formatting overhead; plus a flat `10` for the request. -/
def EstimateChatTokens (messages : List ChatMessage) : Nat :=
  (messages.map fun msg => EstimateTokens msg.role + EstimateTokens msg.content + 4).sum + 10

/-- `CalculateMaxTokensForRequest` (config.go): the output-token budget,
`contextWindow - estimate - 100` clamped to `[100, 4000]`.  The Go `int`
subtraction can go negative, so the intermediate value is an `Int`. -/
def CalculateMaxTokensForRequest (modelConfig : ModelConfig) (messages : List ChatMessage) : Int :=
  let estimatedInputTokens : Int := EstimateChatTokens messages
  let buffer : Int := 100
  let availableForOutput := (modelConfig.maxTokens : Int) - estimatedInputTokens - buffer
  let availableForOutput := if availableForOutput < 100 then 100 else availableForOutput
  let maxOutputTokens : Int := 4000
  if availableForOutput > maxOutputTokens then maxOutputTokens else availableForOutput

/-- The per-model input cap of `ValidateTokenLimits` (config.go):
`int(float64(w) * 0.75)` when `w ≤ 8192`, else `int(float64(w) * 0.5)`.
For every `w : Nat` in range (far below 2^51, where the float products
`3w/4` and `w/2` are exact) this equals floor division, written here as
Nat division. -/
def maxInputTokensFor (w : Nat) : Nat :=
  if w ≤ 8192 then 3 * w / 4 else w / 2

/-- `ValidateTokenLimits` (config.go): fails with the request-too-long error
exactly when the estimate exceeds the input cap. -/
def ValidateTokenLimits (modelConfig : ModelConfig) (messages : List ChatMessage) :
    Except String Unit :=
  let estimatedTokens := EstimateChatTokens messages
  let maxInputTokens := maxInputTokensFor modelConfig.maxTokens
  if estimatedTokens > maxInputTokens then
    .error ("request too long: estimated " ++ toString estimatedTokens ++
      " tokens exceeds model limit of " ++ toString modelConfig.maxTokens ++
      " tokens (max input: " ++ toString maxInputTokens ++
      " tokens). Please reduce the length of your messages")
  else
    .ok ()

/-! ## Model registry (src/models.go; identical code in
src/internal/models/models.go) -/

/-- `ModelRegistry` (src/models.go): the Go map `models map[string]ModelConfig`,
modelled as an association list with unique keys (first match wins on lookup;
all the program's writes go through `AddModel`-style keyed insertion). -/
def ModelRegistry : Type := List (String × ModelConfig)

/-- `GetModel` (models.go): map lookup by public name. -/
def GetModel (r : ModelRegistry) (name : String) : Option ModelConfig :=
  List.lookup name r

/-- `GetModelsByBackend` (models.go): every entry of the given backend that is
enabled. -/
def GetModelsByBackend (r : ModelRegistry) (backend : BackendType) : List ModelConfig :=
  ((r.map Prod.snd).filter fun model => model.backend = backend && model.enabled)

/-- `GetAllModels` (models.go): every enabled entry. -/
def GetAllModels (r : ModelRegistry) : List ModelConfig :=
  ((r.map Prod.snd).filter fun model => model.enabled)

/-- `DisableModel` (models.go): if the name is present, store the entry back
with `Enabled = false`; otherwise do nothing.  On the association list this is
a keyed in-place update. -/
def DisableModel (r : ModelRegistry) (name : String) : ModelRegistry :=
  r.map fun kv => if kv.1 = name then (kv.1, { kv.2 with enabled := false }) else kv

/-- The insertion loop of `addDefaultModels` (models.go): key each entry by its
`Name`. -/
def mkRegistry (models : List ModelConfig) : ModelRegistry :=
  models.map fun model => (model.name, model)

/-- The default catalog of `addDefaultModels` (src/models.go). -/
def defaultModels : List ModelConfig :=
  [ { name := "claude-3.5-sonnet", displayName := "Claude 3.5 Sonnet",
      backend := .anthropic, backendModel := "claude-3-5-sonnet-20241022",
      family := "claude", description := "Most capable model for complex tasks",
      maxTokens := 200000, enabled := true },
    { name := "claude-3.5-haiku", displayName := "Claude 3.5 Haiku",
      backend := .anthropic, backendModel := "claude-3-5-haiku-20241022",
      family := "claude", description := "Fast and efficient model",
      maxTokens := 200000, enabled := true },
    { name := "claude-3.5-opus", displayName := "Claude 3.5 Opus",
      backend := .anthropic, backendModel := "claude-3-5-opus-20241022",
      family := "claude", description := "Most powerful model for complex reasoning",
      maxTokens := 200000, enabled := true },
    { name := "gpt-4o", displayName := "GPT-4o",
      backend := .openai, backendModel := "gpt-4o",
      family := "gpt", description := "Most capable GPT-4 model",
      maxTokens := 16384, enabled := true },
    { name := "gpt-4o-mini", displayName := "GPT-4o Mini",
      backend := .openai, backendModel := "gpt-4o-mini",
      family := "gpt", description := "Faster, cheaper GPT-4 model",
      maxTokens := 16384, enabled := true },
    { name := "gpt-4", displayName := "GPT-4",
      backend := .openai, backendModel := "gpt-4",
      family := "gpt", description := "Classic GPT-4 model",
      maxTokens := 8192, enabled := true },
    { name := "gpt-3.5-turbo", displayName := "GPT-3.5 Turbo",
      backend := .openai, backendModel := "gpt-3.5-turbo",
      family := "gpt", description := "Fast and efficient model",
      maxTokens := 16384, enabled := true } ]

/-- `NewModelRegistry` (models.go): the registry seeded with the default
catalog. -/
def defaultRegistry : ModelRegistry := mkRegistry defaultModels

/-! ## Generic request/response shapes and the backend manager
(src/backend.go) -/

/-- `GenerateRequest` (backend.go). -/
structure GenerateRequest where
  model : String
  prompt : String
  maxTokens : Int
deriving DecidableEq, Repr

/-- `GenerateResponse` (backend.go). -/
structure GenerateResponse where
  model : String
  content : String
  createdAt : String
deriving DecidableEq, Repr

/-- `ChatRequest` (backend.go). -/
structure ChatRequest where
  model : String
  messages : List ChatMessage
  maxTokens : Int
deriving DecidableEq, Repr

/-- `ChatResponse` (backend.go). -/
structure ChatResponse where
  model : String
  message : ChatMessage
  createdAt : String
deriving DecidableEq, Repr

/-- `BackendHandler` (backend.go): the adapter interface.  `generate`/`chat`
return `Except` for the Go `(resp, error)` pair; `isAvailable` is the
credential check. -/
structure BackendHandler where
  generate : GenerateRequest → Except String GenerateResponse
  chat : ChatRequest → Except String ChatResponse
  isAvailable : Bool
  handlerName : String

/-- `BackendManager` (backend.go): the map from provider id to registered
adapter (`GetBackend` is application). -/
def BackendManager : Type := BackendType → Option BackendHandler

/-- The dynamic type of the `req interface{}` argument of `ProcessRequest`:
a single-prompt request, a message-list request, or anything else (the
`default` branch of the Go type switch). -/
inductive Request where
  | generate (r : GenerateRequest)
  | chat (r : ChatRequest)
  | other
deriving Repr

/-- The dynamic type of `ProcessRequest`'s successful `interface{}` result. -/
inductive ProcessResult where
  | generate (r : GenerateResponse)
  | chat (r : ChatResponse)
deriving DecidableEq, Repr

/-- `ProcessRequest` (src/backend.go): look up the adapter for the entry's
backend, reject if absent or unavailable, otherwise route on the request's
dynamic shape. -/
def ProcessRequest (bm : BackendManager) (modelConfig : ModelConfig) (req : Request) :
    Except String ProcessResult :=
  match bm modelConfig.backend with
  | none => .error ("backend " ++ modelConfig.backend.str ++ " not available")
  | some backend =>
    if !backend.isAvailable then
      .error ("backend " ++ modelConfig.backend.str ++ " is not available")
    else
      match req with
      | .generate r => (backend.generate r).map ProcessResult.generate
      | .chat r => (backend.chat r).map ProcessResult.chat
      | .other => .error "unsupported request type"

/-! ## OpenAI adapter request construction (src/pkg/openai/openai_backend.go) -/

/-- The fixed allow-list of `isNewerModel` (openai_backend.go). -/
def newerModels : List String :=
  ["gpt-4o", "gpt-4o-mini", "gpt-5", "gpt-4.1", "gpt-4.5"]

/-- `isNewerModel` (openai_backend.go): exact string comparison of the model id
against each element of the allow-list. -/
def isNewerModel (model : String) : Bool :=
  newerModels.any fun newerModel => model == newerModel

/-- The `openai.ChatCompletionRequest` fields this adapter populates.
`maxTokens = 0` is the Go zero value, i.e. the field left unset (it is tagged
`omitempty` upstream). -/
structure OpenAIChatCompletionRequest where
  model : String
  messages : List ChatMessage
  maxTokens : Int
deriving DecidableEq, Repr

/-- The request construction of `Chat` (openai_backend.go): copy model and
messages, and set `MaxTokens` only when it is positive and the model is not on
the newer-model allow-list. -/
def openaiChatUpstreamRequest (req : ChatRequest) : OpenAIChatCompletionRequest :=
  let openaiReq : OpenAIChatCompletionRequest :=
    { model := req.model, messages := req.messages, maxTokens := 0 }
  if req.maxTokens > 0 && !isNewerModel req.model then
    { openaiReq with maxTokens := req.maxTokens }
  else
    openaiReq

/-- The request construction of `Generate` (openai_backend.go): the prompt
becomes a single `"user"` message; the `MaxTokens` rule is the same as for
`Chat`. -/
def openaiGenerateUpstreamRequest (req : GenerateRequest) : OpenAIChatCompletionRequest :=
  let openaiReq : OpenAIChatCompletionRequest :=
    { model := req.model, messages := [{ role := "user", content := req.prompt }],
      maxTokens := 0 }
  if req.maxTokens > 0 && !isNewerModel req.model then
    { openaiReq with maxTokens := req.maxTokens }
  else
    openaiReq

/-! ## Glob matching and dynamic-fetch filters
(src/internal/fetcher/model_fetcher.go; the matcher itself is Go's
`path/filepath.Match`) -/

/-- One class member of a `[...]` character class, possibly `\`-escaped
(`getEsc` in path/filepath/match.go).  `none` is `ErrBadPattern`: an empty
chunk, or a bare `-` or `]` where a member must start. -/
def getEsc : List Char → Option (Char × List Char)
  | [] => none
  | '-' :: _ => none
  | ']' :: _ => none
  | '\\' :: [] => none
  | '\\' :: c :: rest => some (c, rest)
  | c :: rest => some (c, rest)

/-- The range loop of the `[` case of `matchChunk` (path/filepath/match.go):
scan class members until the closing `]` (which only closes once at least one
member was read), accumulating whether the character `r` fell in any member
range.  `none` is `ErrBadPattern`. -/
def classLoop (r : Char) (fuel : Nat) (chunk : List Char) (acc : Bool) (started : Bool) :
    Option (Bool × List Char) :=
  match fuel with
  | 0 => none
  | fuel + 1 =>
    match chunk, started with
    | ']' :: rest, true => some (acc, rest)
    | chunk, _ =>
      match getEsc chunk with
      | none => none
      | some (lo, rest) =>
        match rest with
        | '-' :: rest2 =>
          match getEsc rest2 with
          | none => none
          | some (hi, rest3) => classLoop r fuel rest3 (acc || (lo ≤ r && r ≤ hi)) true
        | _ => classLoop r fuel rest (acc || (lo ≤ r && r ≤ lo)) true

/-- Denotational model of Go `path/filepath.Match` (with `Separator = '/'`),
as a naive matcher over code points: `*` matches any run of non-separator
characters, `?` one non-separator character, `[...]` a character class with
`^` negation and `-` ranges, `\` escapes; the pattern must cover the whole
name.  A malformed pattern yields `false` — `matchesFilters` discards
`ErrBadPattern` and treats it as a non-match.  For separator-free names
(every model id here) Go's greedy chunk scan agrees with this semantics.
The fuel argument strictly exceeds `p.length + s.length` at every call, so
the `fuel = 0` branch is never taken. -/
def globMatchAux (fuel : Nat) (p s : List Char) : Bool :=
  match fuel with
  | 0 => false
  | fuel + 1 =>
    match p, s with
    | [], [] => true
    | [], _ :: _ => false
    | '*' :: p', s =>
      globMatchAux fuel p' s ||
        (match s with
         | [] => false
         | c :: s' => c ≠ '/' && globMatchAux fuel ('*' :: p') s')
    | '?' :: p', c :: s' => c ≠ '/' && globMatchAux fuel p' s'
    | '\\' :: [], _ => false
    | '\\' :: e :: p', c :: s' => e = c && globMatchAux fuel p' s'
    | '[' :: p', c :: s' =>
      let (negated, p'') :=
        match p' with
        | '^' :: rest => (true, rest)
        | _ => (false, p')
      match classLoop c (p''.length + 1) p'' false false with
      | none => false
      | some (matched, rest) => matched ≠ negated && globMatchAux fuel rest s'
    | _ :: _, [] => false
    | pc :: p', c :: s' => pc = c && globMatchAux fuel p' s'

/-- `filepath.Match pattern name` with the error discarded, as `matchesFilters`
does (`matched, _ := filepath.Match(pattern, modelID)`). -/
def globMatch (pattern name : String) : Bool :=
  globMatchAux (pattern.data.length + name.data.length + 1) pattern.data name.data

/-- `ModelFilterConfig` (internal/config): one provider's dynamic-fetch filter
rule, as used by `matchesFilters` (fields `Enabled`, `IncludePatterns`,
`ExcludePatterns`). -/
structure ModelFilterConfig where
  enabled : Bool
  includePatterns : List String
  excludePatterns : List String
deriving Repr

/-- `matchesFilters` (model_fetcher.go): excluded on any exclude-pattern match;
otherwise included when there are no include patterns, or on any
include-pattern match. -/
def matchesFilters (modelID : String) (filter : ModelFilterConfig) : Bool :=
  if filter.excludePatterns.any fun pattern => globMatch pattern modelID then
    false
  else if filter.includePatterns.isEmpty then
    true
  else
    filter.includePatterns.any fun pattern => globMatch pattern modelID

/-! ## Dynamic-fetch name transformations
(src/internal/fetcher/model_fetcher.go) -/

/-- Go `strings.Split(s, "-")` on the code-point list. -/
def splitOnDash : List Char → List (List Char)
  | [] => [[]]
  | c :: rest =>
    match splitOnDash rest with
    | [] => [[c]]
    | group :: groups =>
      if c = '-' then [] :: group :: groups else (c :: group) :: groups

/-- Go `strings.Join(parts, sep)` for a one-character separator. -/
def joinSep (sep : Char) : List (List Char) → List Char
  | [] => []
  | [part] => part
  | part :: parts => part ++ sep :: joinSep sep parts

/-- `titleCase` (model_fetcher.go): upper-case the first code point. -/
def titleCase : List Char → List Char
  | [] => []
  | c :: cs => c.toUpper :: cs

/-- The `BackendAnthropic` branch of `generateModelName` (model_fetcher.go):
split the provider id on `-`; with at least three parts, first overwrite
`parts[2]` with `parts[2:len-1]` joined by `.` (only when there are more than
three parts), then join the first three parts with `-`. -/
def generateModelNameAnthropic (apiModelID : String) : String :=
  let parts := splitOnDash apiModelID.data
  if parts.length ≥ 3 then
    let parts :=
      if parts.length > 3 then
        parts.set 2 (joinSep '.' ((parts.drop 2).dropLast))
      else parts
    ⟨joinSep '-' (parts.take 3)⟩
  else apiModelID

/-- The `BackendAnthropic` branch of `generateDisplayName` (model_fetcher.go):
with at least three parts, the literal `"Claude"` followed by the title-cased
second and third parts; otherwise the title-cased id. -/
def generateDisplayNameAnthropic (apiModelID : String) : String :=
  let parts := splitOnDash apiModelID.data
  if parts.length ≥ 3 then
    let display := "Claude".data
    let display := if parts.length > 1 then display ++ ' ' :: titleCase (parts.getD 1 []) else display
    let display := if parts.length > 2 then display ++ ' ' :: titleCase (parts.getD 2 []) else display
    ⟨display⟩
  else ⟨titleCase apiModelID.data⟩

/-! ## Streaming emitter (src/internal/fetcher/api_client.go, `streaming`
package: streamResponse / streamErrorResponse / streamNormalResponse) -/

/-- One emitted ndjson line.  For a chat response the slice is carried in
`message.content` (role `"assistant"`), for a generate response in `response`;
`createStreamResponse` fills both shapes identically, so one record stands for
either. -/
structure StreamLine where
  model : String
  createdAt : String
  content : String
  done : Bool
deriving DecidableEq, Repr

/-- The chunk loop of `streamNormalResponse` (api_client.go),
`for i := 0; i < len(content); i += chunkSize` with the hardcoded
`chunkSize := 3`, under the identification of one code point with one byte:
the Go loop indexes and slices BYTES, so this code-point version coincides
with the program only on ASCII content.  It is kept because the claims use
`streamResponse` (below) only on its error branch, which carries the content
whole; the faithful byte-level model of the chunk loop is `chunkBytes3`
below. -/
def chunkContent3 : List Char → List (List Char × Bool)
  | [] => []
  | [a] => [([a], true)]
  | [a, b] => [([a, b], true)]
  | [a, b, c] => [([a, b, c], true)]
  | a :: b :: c :: rest => ([a, b, c], false) :: chunkContent3 rest

/-- `streamNormalResponse` (api_client.go) under the same code-point/byte
identification as `chunkContent3`: one ndjson line per chunk, all carrying
the shared model name and creation token. -/
def streamNormalResponse (model createdAt : String) (content : String) : List StreamLine :=
  (chunkContent3 content.data).map fun chunk =>
    { model := model, createdAt := createdAt, content := ⟨chunk.1⟩, done := chunk.2 }

/-- The UTF-8 encoding of one code point, as byte values (how a Go string
stores a rune). -/
def charUtf8Bytes (c : Char) : List Nat :=
  let n := c.toNat
  if n < 0x80 then [n]
  else if n < 0x800 then [0xC0 + n / 64, 0x80 + n % 64]
  else if n < 0x10000 then [0xE0 + n / 4096, 0x80 + n / 64 % 64, 0x80 + n % 64]
  else [0xF0 + n / 262144, 0x80 + n / 4096 % 64, 0x80 + n / 64 % 64, 0x80 + n % 64]

/-- The byte sequence of a Go string: the UTF-8 bytes of its code points.
This is what `len(content)` and `content[i:end]` range over. -/
def stringUtf8 (s : String) : List Nat :=
  (s.data.map charUtf8Bytes).flatten

/-- The faithful byte-level model of the chunk loop of `streamNormalResponse`
(api_client.go): `for i := 0; i < len(content); i += chunkSize` with
`chunkSize := 3`, emitting the byte slice `content[i:min(i+3, len)]` with
`done = (i+3 >= len)`.  Byte slices may split a multibyte rune. -/
def chunkBytes3 : List Nat → List (List Nat × Bool)
  | [] => []
  | [a] => [([a], true)]
  | [a, b] => [([a, b], true)]
  | [a, b, c] => [([a, b, c], true)]
  | a :: b :: c :: rest => ([a, b, c], false) :: chunkBytes3 rest

/-- One emitted ndjson line of the byte-level chunk loop: the content field is
the raw byte slice (a Go string, not necessarily valid UTF-8). -/
structure StreamLineBytes where
  model : String
  createdAt : String
  content : List Nat
  done : Bool
deriving DecidableEq, Repr

/-- `streamNormalResponse` (api_client.go) at the byte level: chunk the UTF-8
bytes of the content and emit one line per byte slice. -/
def streamNormalResponseBytes (model createdAt : String) (content : String) :
    List StreamLineBytes :=
  (chunkBytes3 (stringUtf8 content)).map fun chunk =>
    { model := model, createdAt := createdAt, content := chunk.1, done := chunk.2 }

/-- `streamErrorResponse` (api_client.go): a single line holding the whole
content, `done = true`. -/
def streamErrorResponse (model createdAt : String) (content : String) : List StreamLine :=
  [{ model := model, createdAt := createdAt, content := content, done := true }]

/-- Go `strings.Contains(haystack, needle)` on code-point lists: the needle is
a prefix of some suffix of the haystack. -/
def goContains (needle : List Char) : List Char → Bool
  | [] => needle.isEmpty
  | c :: rest => needle.isPrefixOf (c :: rest) || goContains needle rest

/-- `streamResponse` (api_client.go): `isError := strings.Contains(content,
"Error:")` decides between the single-line error shape and the chunk loop. -/
def streamResponse (model createdAt : String) (content : String) : List StreamLine :=
  if goContains "Error:".data content.data then
    streamErrorResponse model createdAt content
  else
    streamNormalResponse model createdAt content

/-! ## Streaming chat handler (src/internal/fetcher/api_client.go,
`streaming.HandleStreamingChat`) -/

/-- `OllamaMessage` (internal/types). -/
structure OllamaMessage where
  role : String
  content : String
deriving DecidableEq, Repr

/-- `OllamaMessage.ToChatMessage` (internal/types). -/
def OllamaMessage.toChatMessage (m : OllamaMessage) : ChatMessage :=
  { role := m.role, content := m.content }

/-- `OllamaChatRequest` (internal/types); the untyped `Options` map is unused
by the handlers and omitted. -/
structure OllamaChatRequest where
  model : String
  messages : List OllamaMessage
  stream : Bool
deriving DecidableEq, Repr

/-- `ConvertOllamaToChatRequest` (backend.go). -/
def ConvertOllamaToChatRequest (req : OllamaChatRequest) (maxTokens : Int) : ChatRequest :=
  { model := req.model,
    messages := req.messages.map fun msg => { role := msg.role, content := msg.content },
    maxTokens := maxTokens }

/-- What the handler writes back: Gin's implicit `200` with the ndjson
content type and a list of emitted lines on every streaming path, or an
explicit JSON error status on the invalid-response-shape path. -/
structure HandlerOutput where
  status : Nat
  contentType : String
  lines : List StreamLine
deriving DecidableEq, Repr

def ndjsonContentType : String := "application/x-ndjson"

/-- The body of `HandleStreamingChat` once the model resolved (validation,
budgeting, dispatch, then streaming of the result or of the synthesized
`"Error: ..."` envelope).  `now` stands for the `time.Now().Unix()` creation
token of the synthesized error responses. -/
def handleStreamingChatFound (bm : BackendManager) (now : String) (req : OllamaChatRequest)
    (modelConfig : ModelConfig) : HandlerOutput :=
  let messages := req.messages.map OllamaMessage.toChatMessage
  match ValidateTokenLimits modelConfig messages with
  | .error e =>
    { status := 200, contentType := ndjsonContentType,
      lines := streamResponse req.model now ("Error: " ++ e) }
  | .ok _ =>
    let maxTokensForRequest := CalculateMaxTokensForRequest modelConfig messages
    let chatReq := { ConvertOllamaToChatRequest req maxTokensForRequest with
                       model := modelConfig.backendModel }
    match ProcessRequest bm modelConfig (.chat chatReq) with
    | .error e =>
      { status := 200, contentType := ndjsonContentType,
        lines := streamResponse req.model now ("Error: " ++ e) }
    | .ok (.chat chatResp) =>
      { status := 200, contentType := ndjsonContentType,
        lines := streamResponse req.model chatResp.createdAt chatResp.message.content }
    | .ok (.generate _) =>
      { status := 500, contentType := "application/json", lines := [] }

/-- `HandleStreamingChat` (api_client.go): set the ndjson headers, resolve the
model (streaming the `"Error: model not found"` envelope if absent), then run
the resolved body. -/
def HandleStreamingChat (registry : ModelRegistry) (bm : BackendManager) (now : String)
    (req : OllamaChatRequest) : HandlerOutput :=
  match GetModel registry req.model with
  | none =>
    { status := 200, contentType := ndjsonContentType,
      lines := streamResponse req.model now "Error: model not found" }
  | some modelConfig => handleStreamingChatFound bm now req modelConfig

/-! ## Helper lemmas -/

theorem validateTokenLimits_ok_iff (mc : ModelConfig) (msgs : List ChatMessage) :
    ValidateTokenLimits mc msgs = .ok () ↔
      EstimateChatTokens msgs ≤ maxInputTokensFor mc.maxTokens := by
  unfold ValidateTokenLimits
  dsimp only
  split
  · next h => simp only [reduceCtorEq, false_iff]; omega
  · next h => simp only [true_iff]; omega

theorem validateTokenLimits_error_iff (mc : ModelConfig) (msgs : List ChatMessage) :
    (∃ e, ValidateTokenLimits mc msgs = .error e) ↔
      maxInputTokensFor mc.maxTokens < EstimateChatTokens msgs := by
  unfold ValidateTokenLimits
  dsimp only
  split
  · next h => simp only [Except.error.injEq, exists_eq', true_iff]; omega
  · next h => simp only [reduceCtorEq, exists_false, false_iff]; omega

theorem calculateMaxTokens_bounds (mc : ModelConfig) (msgs : List ChatMessage) :
    100 ≤ CalculateMaxTokensForRequest mc msgs ∧ CalculateMaxTokensForRequest mc msgs ≤ 4000 := by
  unfold CalculateMaxTokensForRequest
  dsimp only
  split_ifs <;> omega

theorem calculateMaxTokens_antitone (mc : ModelConfig) {m1 m2 : List ChatMessage}
    (h : EstimateChatTokens m1 ≤ EstimateChatTokens m2) :
    CalculateMaxTokensForRequest mc m2 ≤ CalculateMaxTokensForRequest mc m1 := by
  unfold CalculateMaxTokensForRequest
  dsimp only
  split_ifs <;> omega

/-- A default-catalog entry with an 8192-token context window, for witnesses. -/
def sampleModel8192 : ModelConfig :=
  { name := "gpt-4", displayName := "GPT-4", backend := .openai, backendModel := "gpt-4",
    family := "gpt", description := "Classic GPT-4 model", maxTokens := 8192, enabled := true }

/-- A small concrete message list, for witnesses. -/
def sampleMsgs : List ChatMessage := [{ role := "user", content := "hi" }]

/-! ## Claim theorems -/

/-- C1: `ValidateTokenLimits` passes a request against a model with context
window 8192 exactly when the estimated token count is at most `6144 =
⌊0.75·8192⌋` (so exactly 6144 passes and 6145 or more fails), and in general
it fails exactly when the estimate exceeds `⌊w·0.75⌋` for windows `w ≤ 8192`
and `⌊w·0.5⌋` for larger windows. -/
theorem validateTokenLimits_boundary (mc : ModelConfig) (msgs : List ChatMessage) :
    (mc.maxTokens = 8192 →
      (ValidateTokenLimits mc msgs = .ok () ↔ EstimateChatTokens msgs ≤ 6144)) ∧
    ((∃ e, ValidateTokenLimits mc msgs = .error e) ↔
      (if mc.maxTokens ≤ 8192 then 3 * mc.maxTokens / 4 else mc.maxTokens / 2)
        < EstimateChatTokens msgs) := by
  constructor
  · intro h8192
    rw [validateTokenLimits_ok_iff, maxInputTokensFor, h8192]
    norm_num
  · rw [validateTokenLimits_error_iff, maxInputTokensFor]

/-- C1 witness: the gpt-4 entry (window 8192) passes a small concrete
message list. -/
theorem validateTokenLimits_boundary_witness :
    ValidateTokenLimits sampleModel8192 sampleMsgs = .ok () :=
  ((validateTokenLimits_boundary sampleModel8192 sampleMsgs).1 rfl).mpr (by decide)

/-- C2: for a fixed model entry, `CalculateMaxTokensForRequest` is
non-increasing in the estimated token count of the message list, and its value
always lies in `[100, 4000]`. -/
theorem calculateMaxTokens_monotone_and_bounded :
    (∀ (mc : ModelConfig) (m1 m2 : List ChatMessage),
        EstimateChatTokens m1 ≤ EstimateChatTokens m2 →
        CalculateMaxTokensForRequest mc m2 ≤ CalculateMaxTokensForRequest mc m1) ∧
    (∀ (mc : ModelConfig) (msgs : List ChatMessage),
        100 ≤ CalculateMaxTokensForRequest mc msgs ∧
        CalculateMaxTokensForRequest mc msgs ≤ 4000) :=
  ⟨fun mc _ _ h => calculateMaxTokens_antitone mc h,
   fun mc msgs => calculateMaxTokens_bounds mc msgs⟩

/-- C2 witness: concrete monotonicity and bounds instance on the gpt-4
entry. -/
theorem calculateMaxTokens_monotone_and_bounded_witness :
    CalculateMaxTokensForRequest sampleModel8192 sampleMsgs ≤
      CalculateMaxTokensForRequest sampleModel8192 [] ∧
    100 ≤ CalculateMaxTokensForRequest sampleModel8192 sampleMsgs ∧
    CalculateMaxTokensForRequest sampleModel8192 sampleMsgs ≤ 4000 :=
  ⟨calculateMaxTokens_monotone_and_bounded.1 sampleModel8192 [] sampleMsgs (by decide),
   calculateMaxTokens_monotone_and_bounded.2 sampleModel8192 sampleMsgs⟩

/-- C3 counterexample: the chunk loop slices BYTES, so the claim fails as
stated for multibyte text: `"ααααααα"` has 7 characters but 14 UTF-8 bytes,
and the emitter produces 5 lines of 3, 3, 3, 3, 2 bytes (splitting runes),
not 3 lines of 3, 3, 1 characters. -/
theorem streamChunking_multibyte_counterexample :
    "ααααααα".data.length = 7 ∧
    (streamNormalResponseBytes "gpt-4" "12345" "ααααααα").length = 5 ∧
    (streamNormalResponseBytes "gpt-4" "12345" "ααααααα").map
        (fun line => line.content.length) = [3, 3, 3, 3, 2] ∧
    (streamNormalResponseBytes "gpt-4" "12345" "ααααααα").map StreamLineBytes.done
      = [false, false, false, false, true] := by
  refine ⟨by decide, by decide, by decide, by decide⟩

/-- C3 (amended): on a response text of 7 BYTES — in particular any
7-character ASCII text, where bytes and characters coincide — the chunking
emitter produces exactly 3 ndjson lines carrying byte slices of 3, 3 and 1
bytes, with `done` false, false, true, and concatenating the emitted slices
in order reproduces the original bytes. -/
theorem streamNormalResponse_sevenBytes (model createdAt : String) (content : String)
    (h : (stringUtf8 content).length = 7) :
    (streamNormalResponseBytes model createdAt content).length = 3 ∧
    (streamNormalResponseBytes model createdAt content).map
        (fun line => line.content.length) = [3, 3, 1] ∧
    (streamNormalResponseBytes model createdAt content).map StreamLineBytes.done
      = [false, false, true] ∧
    ((streamNormalResponseBytes model createdAt content).map StreamLineBytes.content).flatten
      = stringUtf8 content := by
  rcases hb : stringUtf8 content with _ | ⟨a, _ | ⟨b, _ | ⟨c, _ | ⟨d, _ | ⟨e, _ | ⟨f,
    _ | ⟨g, _ | ⟨x, rest⟩⟩⟩⟩⟩⟩⟩⟩ <;>
    rw [hb] at h <;> simp_all [streamNormalResponseBytes, hb]
  exact ⟨rfl, rfl, rfl, rfl⟩

/-- C3 witness: the amended theorem evaluated on the 7-byte ASCII text
`"stream!"`. -/
theorem streamNormalResponse_sevenBytes_witness :
    (streamNormalResponseBytes "gpt-4" "12345" "stream!").length = 3 ∧
    (streamNormalResponseBytes "gpt-4" "12345" "stream!").map
        (fun line => line.content.length) = [3, 3, 1] ∧
    (streamNormalResponseBytes "gpt-4" "12345" "stream!").map StreamLineBytes.done
      = [false, false, true] ∧
    ((streamNormalResponseBytes "gpt-4" "12345" "stream!").map StreamLineBytes.content).flatten
      = stringUtf8 "stream!" :=
  streamNormalResponse_sevenBytes "gpt-4" "12345" "stream!" (by decide)

/-- C4: whenever the response content contains the substring `"Error:"`,
`streamResponse` emits a single line carrying the whole content with
`done = true`, bypassing the chunk loop — regardless of whether the content is
actually an error. -/
theorem streamResponse_errorContent (model createdAt content : String)
    (h : goContains "Error:".data content.data = true) :
    streamResponse model createdAt content =
      [{ model := model, createdAt := createdAt, content := content, done := true }] := by
  unfold streamResponse
  rw [h]
  rfl

/-- C4 witness: a legitimate 25-character response text that merely mentions
`"Error:"` is emitted as one un-chunked line. -/
theorem streamResponse_errorContent_witness :
    streamResponse "gpt-4" "12345" "The Error: page was fixed" =
      [{ model := "gpt-4", createdAt := "12345",
         content := "The Error: page was fixed", done := true }] :=
  streamResponse_errorContent "gpt-4" "12345" "The Error: page was fixed" (by decide)

/-- C5: a streaming chat request naming a model absent from the registry
produces status 200 with the ndjson content type and exactly one line, with
`done = true` and content `"Error: model not found"`; no structured HTTP error
body is produced. -/
theorem handleStreamingChat_modelNotFound (registry : ModelRegistry) (bm : BackendManager)
    (now : String) (req : OllamaChatRequest) (h : GetModel registry req.model = none) :
    HandleStreamingChat registry bm now req =
      { status := 200, contentType := ndjsonContentType,
        lines := [{ model := req.model, createdAt := now,
                    content := "Error: model not found", done := true }] } := by
  unfold HandleStreamingChat
  rw [h]
  rfl

/-- C5 witness: requesting the unknown model `"llama2"` against the default
catalog. -/
theorem handleStreamingChat_modelNotFound_witness :
    HandleStreamingChat defaultRegistry (fun _ => none) "12345"
        { model := "llama2", messages := [], stream := true } =
      { status := 200, contentType := ndjsonContentType,
        lines := [{ model := "llama2", createdAt := "12345",
                    content := "Error: model not found", done := true }] } :=
  handleStreamingChat_modelNotFound defaultRegistry (fun _ => none) "12345"
    { model := "llama2", messages := [], stream := true } (by decide)

/-- C6: membership in the newer-model allow-list is exact string equality, and
with the computed budget in `MaxTokens` (which is always positive) the
constructed upstream chat-completion request leaves `max_tokens` at the unset
zero value for allow-listed ids and sets it to exactly the budget for all
other ids — for both the `Chat` and the `Generate` construction. -/
theorem openai_newerModel_maxTokens :
    (∀ model : String, isNewerModel model = true ↔ model ∈ newerModels) ∧
    (∀ (req : ChatRequest) (mc : ModelConfig) (msgs : List ChatMessage),
        req.maxTokens = CalculateMaxTokensForRequest mc msgs →
        ((isNewerModel req.model = true → (openaiChatUpstreamRequest req).maxTokens = 0) ∧
         (isNewerModel req.model = false →
            (openaiChatUpstreamRequest req).maxTokens = CalculateMaxTokensForRequest mc msgs))) ∧
    (∀ (req : GenerateRequest) (mc : ModelConfig) (msgs : List ChatMessage),
        req.maxTokens = CalculateMaxTokensForRequest mc msgs →
        ((isNewerModel req.model = true → (openaiGenerateUpstreamRequest req).maxTokens = 0) ∧
         (isNewerModel req.model = false →
            (openaiGenerateUpstreamRequest req).maxTokens = CalculateMaxTokensForRequest mc msgs))) := by
  refine ⟨?_, ?_, ?_⟩
  · intro model
    rw [isNewerModel, List.any_eq_true]
    constructor
    · rintro ⟨x, hx, he⟩
      rw [show (model == x) = decide (model = x) from rfl, decide_eq_true_eq] at he
      rwa [he]
    · intro hm
      exact ⟨model, hm, by simp⟩
  · intro req mc msgs hbudget
    have hpos : req.maxTokens > 0 := by
      have := (calculateMaxTokens_bounds mc msgs).1
      omega
    constructor
    · intro hnew
      simp [openaiChatUpstreamRequest, hnew]
    · intro hnew
      have h100 := (calculateMaxTokens_bounds mc msgs).1
      simp [openaiChatUpstreamRequest, hnew, hbudget]
      rw [if_pos (by omega)]
  · intro req mc msgs hbudget
    have hpos : req.maxTokens > 0 := by
      have := (calculateMaxTokens_bounds mc msgs).1
      omega
    constructor
    · intro hnew
      simp [openaiGenerateUpstreamRequest, hnew]
    · intro hnew
      have h100 := (calculateMaxTokens_bounds mc msgs).1
      simp [openaiGenerateUpstreamRequest, hnew, hbudget]
      rw [if_pos (by omega)]

/-- C6 witness: `gpt-4o` (allow-listed) gets no `max_tokens`; `gpt-4`
(not allow-listed) gets exactly the computed budget. -/
theorem openai_newerModel_maxTokens_witness :
    isNewerModel "gpt-4o" = true ∧
    (openaiChatUpstreamRequest
      { model := "gpt-4o", messages := [],
        maxTokens := CalculateMaxTokensForRequest sampleModel8192 [] }).maxTokens = 0 ∧
    (openaiChatUpstreamRequest
      { model := "gpt-4", messages := [],
        maxTokens := CalculateMaxTokensForRequest sampleModel8192 [] }).maxTokens =
      CalculateMaxTokensForRequest sampleModel8192 [] :=
  ⟨(openai_newerModel_maxTokens.1 "gpt-4o").mpr (by decide),
   (openai_newerModel_maxTokens.2.1 _ sampleModel8192 [] rfl).1 (by decide),
   (openai_newerModel_maxTokens.2.1 _ sampleModel8192 [] rfl).2 (by decide)⟩

/-- C7: an id matching any exclude glob is excluded regardless of the include
patterns; otherwise it is included iff the include list is empty or it matches
some include glob; in particular `claude-3-5-sonnet-20241022` is excluded by
`excludePatterns = ["claude-3-5-*"]` despite matching
`includePatterns = ["claude-*"]`. -/
theorem matchesFilters_precedence :
    (∀ (modelID : String) (filter : ModelFilterConfig),
        (∃ p ∈ filter.excludePatterns, globMatch p modelID = true) →
        matchesFilters modelID filter = false) ∧
    (∀ (modelID : String) (filter : ModelFilterConfig),
        (∀ p ∈ filter.excludePatterns, globMatch p modelID = false) →
        (matchesFilters modelID filter = true ↔
          (filter.includePatterns = [] ∨
            ∃ p ∈ filter.includePatterns, globMatch p modelID = true))) ∧
    matchesFilters "claude-3-5-sonnet-20241022"
      { enabled := true, includePatterns := ["claude-*"],
        excludePatterns := ["claude-3-5-*"] } = false := by
  refine ⟨?_, ?_, by decide⟩
  · intro modelID filter hex
    have : filter.excludePatterns.any (fun pattern => globMatch pattern modelID) = true := by
      rw [List.any_eq_true]
      obtain ⟨p, hp, hm⟩ := hex
      exact ⟨p, hp, hm⟩
    simp [matchesFilters, this]
  · intro modelID filter hex
    have hall : filter.excludePatterns.any (fun pattern => globMatch pattern modelID) = false := by
      rw [List.any_eq_false]
      intro p hp
      simp [hex p hp]
    rcases hinc : filter.includePatterns with _ | ⟨q, qs⟩
    · simp [matchesFilters, hall, hinc]
    · simp only [matchesFilters, hall, Bool.false_eq_true, if_false, hinc,
        List.isEmpty_cons, reduceCtorEq, List.any_eq_true]
      constructor
      · intro ⟨p, hp, hm⟩
        exact Or.inr ⟨p, hp, hm⟩
      · rintro (h | ⟨p, hp, hm⟩)
        · exact absurd h (by simp)
        · exact ⟨p, hp, hm⟩

/-- C7 witness: the exclude-precedence instance, and include-all-by-default on
an empty filter. -/
theorem matchesFilters_precedence_witness :
    matchesFilters "claude-3-5-sonnet-20241022"
      { enabled := true, includePatterns := ["claude-*"],
        excludePatterns := ["claude-3-5-*"] } = false ∧
    matchesFilters "gpt-4o"
      { enabled := true, includePatterns := [], excludePatterns := [] } = true :=
  ⟨matchesFilters_precedence.1 "claude-3-5-sonnet-20241022" _
      ⟨"claude-3-5-*", by decide, by decide⟩,
   (matchesFilters_precedence.2.1 "gpt-4o" _ (by simp)).mpr (Or.inl rfl)⟩

/-- C8 (code evaluation at the failing input): for the five-part provider id
`claude-3-5-sonnet-20241022` the transformation produces the public name
`claude-3-5.sonnet` — not the `claude-3.5-sonnet` its own comment, the static
default catalog and the spec promise — and the display name `Claude 3 5` — not
`Claude 3.5 Sonnet` (the tier segment is dropped entirely). -/
theorem generateNames_fiveParts_eval :
    generateModelNameAnthropic "claude-3-5-sonnet-20241022" = "claude-3-5.sonnet" ∧
    generateDisplayNameAnthropic "claude-3-5-sonnet-20241022" = "Claude 3 5" ∧
    generateModelNameAnthropic "claude-3-5-sonnet-20241022" ≠ "claude-3.5-sonnet" ∧
    generateDisplayNameAnthropic "claude-3-5-sonnet-20241022" ≠ "Claude 3.5 Sonnet" := by
  refine ⟨by decide, by decide, by decide, by decide⟩

/-- C9: dispatch fails naming the provider when no adapter is registered for
the entry's backend; fails naming the provider when the adapter is registered
but unavailable; and otherwise routes a single-prompt request to `generate`
and a message-list request to `chat`, returning that adapter's result. -/
theorem processRequest_routing (bm : BackendManager) (mc : ModelConfig) :
    (bm mc.backend = none →
      ∀ req, ProcessRequest bm mc req =
        .error ("backend " ++ mc.backend.str ++ " not available")) ∧
    (∀ b, bm mc.backend = some b → b.isAvailable = false →
      ∀ req, ProcessRequest bm mc req =
        .error ("backend " ++ mc.backend.str ++ " is not available")) ∧
    (∀ b, bm mc.backend = some b → b.isAvailable = true →
      (∀ g, ProcessRequest bm mc (.generate g) = (b.generate g).map ProcessResult.generate) ∧
      (∀ c, ProcessRequest bm mc (.chat c) = (b.chat c).map ProcessResult.chat)) := by
  refine ⟨?_, ?_, ?_⟩
  · intro h req
    unfold ProcessRequest
    rw [h]
  · intro b hb hav req
    unfold ProcessRequest
    rw [hb]
    simp [hav]
  · intro b hb hav
    constructor <;> intro x <;>
      (unfold ProcessRequest; rw [hb]; simp [hav])

/-- A concrete always-succeeding adapter, for witnesses. -/
def sampleHandler : BackendHandler :=
  { generate := fun req => .ok { model := req.model, content := "hello", createdAt := "1" },
    chat := fun req =>
      .ok { model := req.model, message := { role := "assistant", content := "hello" },
            createdAt := "1" },
    isAvailable := true, handlerName := "openai" }

/-- C9 witness: dispatch against an empty manager names the provider in the
error; dispatch of a message-list request against an available adapter returns
that adapter's chat result. -/
theorem processRequest_routing_witness :
    ProcessRequest (fun _ => none) sampleModel8192 .other =
      .error "backend openai not available" ∧
    ProcessRequest (fun _ => some sampleHandler) sampleModel8192
        (.chat { model := "gpt-4", messages := [], maxTokens := 100 }) =
      .ok (.chat { model := "gpt-4",
                   message := { role := "assistant", content := "hello" },
                   createdAt := "1" }) :=
  ⟨(processRequest_routing (fun _ => none) sampleModel8192).1 rfl .other,
   ((processRequest_routing (fun _ => some sampleHandler) sampleModel8192).2.2
      sampleHandler rfl rfl).2 { model := "gpt-4", messages := [], maxTokens := 100 }⟩

/-! ### Frame lemmas for `DisableModel` -/

theorem lookup_map_keyfix {β : Type} (f : String → β → β) (l : List (String × β)) (k : String) :
    List.lookup k (l.map fun kv => (kv.1, f kv.1 kv.2)) = (List.lookup k l).map (f k) := by
  induction l with
  | nil => rfl
  | cons kv t ih =>
    obtain ⟨a, m⟩ := kv
    simp only [List.map_cons, List.lookup]
    by_cases hka : k = a
    · subst hka
      simp
    · have hbeq : (k == a) = false := by simp [hka]
      simp [hbeq, ih]

theorem getModel_disableModel (r : ModelRegistry) (nm k : String) :
    GetModel (DisableModel r nm) k =
      (GetModel r k).map fun m => if k = nm then { m with enabled := false } else m := by
  have hfun : (fun kv : String × ModelConfig =>
      if kv.1 = nm then (kv.1, { kv.2 with enabled := false }) else kv) =
      (fun kv : String × ModelConfig =>
        (kv.1, if kv.1 = nm then { kv.2 with enabled := false } else kv.2)) := by
    funext kv
    by_cases h : kv.1 = nm <;> simp [h]
  rw [GetModel, GetModel, DisableModel, hfun,
    lookup_map_keyfix (fun key v => if key = nm then { v with enabled := false } else v) r k]

theorem handleStreamingChatFound_enabled (bm : BackendManager) (now : String)
    (req : OllamaChatRequest) (mc : ModelConfig) :
    handleStreamingChatFound bm now req { mc with enabled := false } =
      handleStreamingChatFound bm now req mc := rfl

theorem getAllModels_disableModel (r : ModelRegistry) (nm : String) :
    GetAllModels (DisableModel r nm) = GetAllModels (r.filter fun kv => kv.1 != nm) := by
  induction r with
  | nil => rfl
  | cons kv t ih =>
    obtain ⟨a, m⟩ := kv
    by_cases han : a = nm <;> by_cases hen : m.enabled <;>
      simp_all [GetAllModels, DisableModel, List.filter_cons]

theorem getModelsByBackend_disableModel (r : ModelRegistry) (nm : String) (b : BackendType) :
    GetModelsByBackend (DisableModel r nm) b =
      GetModelsByBackend (r.filter fun kv => kv.1 != nm) b := by
  induction r with
  | nil => rfl
  | cons kv t ih =>
    obtain ⟨a, m⟩ := kv
    by_cases han : a = nm <;> by_cases hen : m.enabled <;> by_cases hbk : m.backend = b <;>
      simp_all [GetModelsByBackend, DisableModel, List.filter_cons]

/-- C10: `DisableModel` only flips the named entry's `Enabled` flag: the entry
stays present and `GetModel` still returns it (flag cleared), every other name
is untouched, the streaming chat handler — which never reads `Enabled` — still
resolves and dispatches exactly as before, and only the listing operations
`GetAllModels` / `GetModelsByBackend` drop the disabled entry. -/
theorem disableModel_frame (r : ModelRegistry) (nm : String) :
    (GetModel (DisableModel r nm) nm =
      (GetModel r nm).map fun m => { m with enabled := false }) ∧
    (∀ other, other ≠ nm → GetModel (DisableModel r nm) other = GetModel r other) ∧
    (∀ (bm : BackendManager) (now : String) (req : OllamaChatRequest),
      HandleStreamingChat (DisableModel r nm) bm now req = HandleStreamingChat r bm now req) ∧
    (GetAllModels (DisableModel r nm) = GetAllModels (r.filter fun kv => kv.1 != nm)) ∧
    (∀ b, GetModelsByBackend (DisableModel r nm) b =
      GetModelsByBackend (r.filter fun kv => kv.1 != nm) b) := by
  refine ⟨?_, ?_, ?_, getAllModels_disableModel r nm,
    fun b => getModelsByBackend_disableModel r nm b⟩
  · rw [getModel_disableModel]
    simp
  · intro other ho
    rw [getModel_disableModel]
    simp [ho]
  · intro bm now req
    unfold HandleStreamingChat
    rw [getModel_disableModel]
    cases hG : GetModel r req.model with
    | none => rfl
    | some mc =>
      by_cases hm : req.model = nm
      · simp only [Option.map_some, hm, if_pos]
        exact handleStreamingChatFound_enabled bm now req mc
      · simp [hm]

/-- C10 witness: disabling `gpt-4` in the default catalog leaves `gpt-4o`
untouched and keeps `gpt-4` resolvable with only its flag cleared. -/
theorem disableModel_frame_witness :
    GetModel (DisableModel defaultRegistry "gpt-4") "gpt-4o" =
      GetModel defaultRegistry "gpt-4o" ∧
    GetModel (DisableModel defaultRegistry "gpt-4") "gpt-4" =
      (GetModel defaultRegistry "gpt-4").map (fun m => { m with enabled := false }) :=
  ⟨(disableModel_frame defaultRegistry "gpt-4").2.1 "gpt-4o" (by decide),
   (disableModel_frame defaultRegistry "gpt-4").1⟩

end LLMProxy
